import Mathlib

/-!
Verification of the Rock-Paper-Scissors-Plus round engine.

The definitions below are a shallow embedding of the game logic of
`game_referee_v2.py` (the full state machine: `GameState`, `validate_move`,
`validate_move_tool`, `determine_winner`, `choose_bot_move`,
`resolve_round_tool`, `update_game_state_tool`) and of the inline winner
computation of `game_referee.py` (`resolve_winner_v1`).

The bot's only source of randomness, `random.choice(["rock","paper","scissors"])`,
is modelled by an injected index `pick : Fin 3` selecting from that list.
The pydantic validation performed by `GameState(**current_state)` at the top of
`update_game_state_tool` is modelled by the boolean `GameState.pydValid`
(the declared `Field` constraints) guarding the transition, which therefore
returns `Except String GameState`: `Except.error` models a raised
`ValidationError`, and everything after the guard is the pure `update_core`.
-/

namespace RockPaperBomb

/-- The `VALID_MOVES` set of `game_referee_v2.py`. -/
def VALID_MOVES : List String := ["rock", "paper", "scissors", "bomb"]

/-- Python `str.lower()`: lowercase every character. -/
def pyLower (s : String) : String := ⟨s.data.map Char.toLower⟩

/-- Python `str.strip()`: drop leading and trailing whitespace. -/
def pyStrip (s : String) : String :=
  ⟨((s.data.dropWhile Char.isWhitespace).reverse.dropWhile
      Char.isWhitespace).reverse⟩

/-- Python normalization `user_input.lower().strip()`. -/
def pyNormalize (s : String) : String := pyStrip (pyLower s)

/-- The `GameState` pydantic model of `game_referee_v2.py` (fields only;
integer fields are modelled as `Int`, matching unbounded Python ints). -/
structure GameState where
  round_number : Int
  user_score : Int
  bot_score : Int
  user_bomb_used : Bool
  bot_bomb_used : Bool
  game_active : Bool
  last_user_move : String
  last_bot_move : String
  last_result : String
deriving DecidableEq, Repr

/-- The default `GameState()`: round 1, zero scores, bombs unused, active. -/
def initialState : GameState :=
  { round_number := 1, user_score := 0, bot_score := 0,
    user_bomb_used := false, bot_bomb_used := false, game_active := true,
    last_user_move := "", last_bot_move := "", last_result := "" }

/-- The declared pydantic `Field` constraints of `GameState`:
`round_number` with `ge=1, le=3`, both scores with `ge=0`.
`GameState(**d)` succeeds exactly when these hold. -/
def GameState.pydValid (st : GameState) : Bool :=
  decide (1 ≤ st.round_number) && decide (st.round_number ≤ 3) &&
  decide (0 ≤ st.user_score) && decide (0 ≤ st.bot_score)

/-- `validate_move`: returns (is in VALID_MOVES, normalized input). -/
def validate_move (user_input : String) : Bool × String :=
  let cleaned := pyNormalize user_input
  (decide (cleaned ∈ VALID_MOVES), cleaned)

/-- The dict returned by `validate_move_tool`. -/
structure ValidationResult where
  valid : Bool
  error : Option String
  move : Option String
deriving DecidableEq, Repr

/-- `validate_move_tool`: invalid text, then bomb re-use, then success. -/
def validate_move_tool (user_input : String) (user_bomb_used : Bool) :
    ValidationResult :=
  let v := validate_move user_input
  if !v.1 then
    { valid := false,
      error := some ("Invalid move: \x27" ++ user_input ++
        "\x27. Use: rock, paper, scissors, bomb"),
      move := none }
  else if v.2 == "bomb" && user_bomb_used then
    { valid := false, error := some "You already used your bomb!", move := none }
  else
    { valid := true, error := none, move := some v.2 }

/-- The `wins` dict of `determine_winner`. -/
def winsMap : List (String × String) :=
  [("rock", "scissors"), ("scissors", "paper"), ("paper", "rock")]

/-- `determine_winner` of `game_referee_v2.py`. -/
def determine_winner (user_move bot_move : String) : String :=
  if user_move == bot_move then "draw"
  else if user_move == "bomb" then "user"
  else if bot_move == "bomb" then "bot"
  else if winsMap.lookup user_move == some bot_move then "user" else "bot"

/-- The inline winner computation of `GameEngine.resolve_round`
in `game_referee.py`. -/
def resolve_winner_v1 (user_move bot_move : String) : String :=
  if user_move == bot_move then "draw"
  else if user_move == "bomb" then "user"
  else if bot_move == "bomb" then "bot"
  else if (user_move == "rock" && bot_move == "scissors") ||
          (user_move == "scissors" && bot_move == "paper") ||
          (user_move == "paper" && bot_move == "rock") then "user"
  else "bot"

/-- The list `["rock", "paper", "scissors"]` the bot draws from. -/
def rpsChoices : List String := ["rock", "paper", "scissors"]

/-- `choose_bot_move` of `game_referee_v2.py`; the random draw
`random.choice(["rock","paper","scissors"])` is the injected `pick`. -/
def choose_bot_move (state : GameState) (pick : Fin 3) : String :=
  if !state.bot_bomb_used && state.round_number == 2 &&
      decide (state.bot_score < state.user_score) then "bomb"
  else rpsChoices.getD pick.val ""

/-- The dict returned by `resolve_round_tool`. -/
structure RoundResult where
  user_move : String
  bot_move : String
  winner : String
  user_point : Int
  bot_point : Int
deriving DecidableEq, Repr

/-- `resolve_round_tool` of `game_referee_v2.py`. -/
def resolve_round_tool (user_move bot_move : String) : RoundResult :=
  let winner := determine_winner user_move bot_move
  { user_move := user_move, bot_move := bot_move, winner := winner,
    user_point := if winner == "user" then 1 else 0,
    bot_point := if winner == "bot" then 1 else 0 }

/-- The body of `update_game_state_tool` after the pydantic re-validation
`GameState(**current_state)` has succeeded. -/
def update_core (user_input : String) (state : GameState) (pick : Fin 3) :
    GameState :=
  let validation := validate_move_tool user_input state.user_bomb_used
  if !validation.valid then
    let st :=
      { state with
        last_user_move := user_input,
        last_bot_move := "",
        last_result := validation.error.getD "",
        round_number := state.round_number + 1 }
    if st.round_number > 3 then { st with game_active := false } else st
  else
    let user_move := validation.move.getD ""
    let st1 :=
      if user_move == "bomb" then { state with user_bomb_used := true }
      else state
    let bot_move := choose_bot_move st1 pick
    let st2 :=
      if bot_move == "bomb" then { st1 with bot_bomb_used := true } else st1
    let rr := resolve_round_tool user_move bot_move
    let st3 :=
      { st2 with
        user_score := st2.user_score + rr.user_point,
        bot_score := st2.bot_score + rr.bot_point,
        last_user_move := user_move,
        last_bot_move := bot_move,
        last_result :=
          if rr.winner == "user" then "You win this round!"
          else if rr.winner == "bot" then "Bot wins this round!"
          else "It\x27s a draw!" }
    let st4 := { st3 with round_number := st3.round_number + 1 }
    if st4.round_number > 3 then { st4 with game_active := false } else st4

/-- `update_game_state_tool`: `GameState(**current_state)` raises a
`ValidationError` when the declared field constraints fail, otherwise the
pure update runs. -/
def update_game_state_tool (user_input : String) (current_state : GameState)
    (pick : Fin 3) : Except String GameState :=
  if current_state.pydValid then
    Except.ok (update_core user_input current_state pick)
  else
    Except.error "ValidationError"

/-- A fixed index for the bot's random draw (selects "rock"). -/
def pick0 : Fin 3 := 0

/-- States reachable from the default state by successful engine calls. -/
inductive Reachable : GameState → Prop
  | init : Reachable initialState
  | step (st st' : GameState) (input : String) (pick : Fin 3) :
      Reachable st → update_game_state_tool input st pick = Except.ok st' →
      Reachable st'

/-- A successful engine call is exactly a pydantic-valid input state
followed by the pure update. -/
theorem update_ok_iff (raw : String) (st : GameState) (pick : Fin 3)
    (st' : GameState) :
    update_game_state_tool raw st pick = Except.ok st' ↔
      (st.pydValid = true ∧ st' = update_core raw st pick) := by
  unfold update_game_state_tool
  by_cases h : st.pydValid = true
  · rw [if_pos h]
    constructor
    · intro he
      exact ⟨h, (Except.ok.inj he).symm⟩
    · rintro ⟨-, rfl⟩
      rfl
  · rw [if_neg h]
    constructor
    · intro he
      exact Except.noConfusion he
    · rintro ⟨h1, -⟩
      exact absurd h1 h

/-- The declared field constraints bound `round_number` by 1..3. -/
theorem pydValid_round_bounds (st : GameState) (h : st.pydValid = true) :
    1 ≤ st.round_number ∧ st.round_number ≤ 3 := by
  unfold GameState.pydValid at h
  simp only [Bool.and_eq_true, decide_eq_true_eq] at h
  exact ⟨h.1.1.1, h.1.1.2⟩

/-- Invalid raw input: the transition takes the wasted-round branch with
the invalid-move message. -/
theorem update_core_invalid_eq (raw : String) (st : GameState) (pick : Fin 3)
    (h : pyNormalize raw ∉ VALID_MOVES) :
    update_core raw st pick =
      { st with
        last_user_move := raw,
        last_bot_move := "",
        last_result := "Invalid move: \x27" ++ raw ++
          "\x27. Use: rock, paper, scissors, bomb",
        round_number := st.round_number + 1,
        game_active :=
          if st.round_number + 1 > 3 then false else st.game_active } := by
  have hv : validate_move_tool raw st.user_bomb_used =
      { valid := false,
        error := some ("Invalid move: \x27" ++ raw ++
          "\x27. Use: rock, paper, scissors, bomb"),
        move := none } := by
    simp [validate_move_tool, validate_move, h]
  simp [update_core, hv]
  split_ifs with h3 <;> simp [h3]

/-- Bomb re-use: the transition takes the wasted-round branch with the
distinct bomb message. -/
theorem update_core_bomb_reuse_eq (raw : String) (st : GameState)
    (pick : Fin 3) (hn : pyNormalize raw = "bomb")
    (hb : st.user_bomb_used = true) :
    update_core raw st pick =
      { st with
        last_user_move := raw,
        last_bot_move := "",
        last_result := "You already used your bomb!",
        round_number := st.round_number + 1,
        game_active :=
          if st.round_number + 1 > 3 then false else st.game_active } := by
  have hv : validate_move_tool raw st.user_bomb_used =
      { valid := false, error := some "You already used your bomb!",
        move := none } := by
    simp [validate_move_tool, validate_move, hn, hb, VALID_MOVES]
  simp [update_core, hv]
  split_ifs with h3 <;> simp [h3]

/-- Every path of the pure update increments `round_number` by exactly 1. -/
theorem update_core_round_eq (raw : String) (st : GameState) (pick : Fin 3) :
    (update_core raw st pick).round_number = st.round_number + 1 := by
  simp only [update_core]
  rcases hV : validate_move_tool raw st.user_bomb_used with ⟨valid, error, move⟩
  cases valid <;>
    simp [apply_ite GameState.round_number, ite_self]

/-- Every path of the pure update sets `game_active` to false exactly when
the incremented round number exceeds 3, and otherwise leaves it unchanged. -/
theorem update_core_active_eq (raw : String) (st : GameState) (pick : Fin 3) :
    (update_core raw st pick).game_active =
      if st.round_number + 1 > 3 then false else st.game_active := by
  simp only [update_core]
  rcases hV : validate_move_tool raw st.user_bomb_used with ⟨valid, error, move⟩
  cases valid <;>
    simp [apply_ite GameState.game_active, apply_ite GameState.round_number,
      ite_self]

/-- `resolve_round_tool` awards at most one point in total. -/
theorem resolve_round_points (u b : String) :
    0 ≤ (resolve_round_tool u b).user_point ∧
    0 ≤ (resolve_round_tool u b).bot_point ∧
    (resolve_round_tool u b).user_point +
      (resolve_round_tool u b).bot_point ≤ 1 := by
  unfold resolve_round_tool
  by_cases h1 : determine_winner u b == "user" <;>
    by_cases h2 : determine_winner u b == "bot" <;>
      simp_all [beq_iff_eq]

/-- A round result added to both scores grows the sum by at most 1. -/
theorem score_aux (a b : Int) (u bm : String) :
    a + (resolve_round_tool u bm).user_point +
      (b + (resolve_round_tool u bm).bot_point) ≤ a + b + 1 := by
  have h := resolve_round_points u bm
  omega

/-- Every path of the pure update grows the score sum by at most 1. -/
theorem update_core_score_sum (raw : String) (st : GameState) (pick : Fin 3) :
    (update_core raw st pick).user_score +
      (update_core raw st pick).bot_score ≤
      st.user_score + st.bot_score + 1 := by
  simp only [update_core]
  rcases hV : validate_move_tool raw st.user_bomb_used with ⟨valid, error, move⟩
  cases valid
  · simp [apply_ite GameState.user_score, apply_ite GameState.bot_score,
      ite_self]
  · simp only [Bool.not_true, Bool.false_eq_true, if_false,
      apply_ite GameState.user_score, apply_ite GameState.bot_score, ite_self]
    exact score_aux _ _ _ _

/-- The spec's standard cycle: rock beats scissors, scissors beats paper,
paper beats rock. -/
def specBeats (u b : String) : Bool :=
  (u == "rock" && b == "scissors") || (u == "scissors" && b == "paper") ||
  (u == "paper" && b == "rock")

/-- C1: over the full 4x4 domain, `determine_winner` returns draw on equal
moves, user on an unequal user bomb, bot on an unequal bot bomb, and
otherwise follows the standard cycle. -/
theorem determine_winner_spec_table :
    ∀ u ∈ VALID_MOVES, ∀ b ∈ VALID_MOVES,
      determine_winner u b =
        if u = b then "draw"
        else if u = "bomb" then "user"
        else if b = "bomb" then "bot"
        else if specBeats u b then "user" else "bot" := by decide

/-- C1 witness: the table evaluated at (rock, scissors). -/
theorem determine_winner_spec_table_witness :
    determine_winner "rock" "scissors" =
      if ("rock" : String) = "scissors" then "draw"
      else if ("rock" : String) = "bomb" then "user"
      else if ("scissors" : String) = "bomb" then "bot"
      else if specBeats "rock" "scissors" then "user" else "bot" :=
  determine_winner_spec_table "rock" (by decide) "scissors" (by decide)

/-- C10: the inline winner computation of `game_referee.py` and
`determine_winner` of `game_referee_v2.py` agree on the full 4x4 domain. -/
theorem winner_variants_agree :
    ∀ u ∈ VALID_MOVES, ∀ b ∈ VALID_MOVES,
      resolve_winner_v1 u b = determine_winner u b := by decide

/-- C10 witness: both variants evaluated at (bomb, rock). -/
theorem winner_variants_agree_witness :
    resolve_winner_v1 "bomb" "rock" = determine_winner "bomb" "rock" :=
  winner_variants_agree "bomb" (by decide) "rock" (by decide)

/-- C2: for every raw input whose lowercased, trimmed form is not a valid
move, the engine call on a pydantic-valid state wastes the round:
round_number increments by 1, last_user_move is the raw un-normalized
input, last_bot_move is empty, scores and bomb flags are unchanged, and
game_active is set to false exactly when the incremented round number
exceeds 3. -/
theorem invalid_input_wastes_round (raw : String) (st : GameState)
    (pick : Fin 3) (hval : st.pydValid = true)
    (hinv : pyNormalize raw ∉ VALID_MOVES) :
    ∃ st', update_game_state_tool raw st pick = Except.ok st' ∧
      st'.round_number = st.round_number + 1 ∧
      st'.last_user_move = raw ∧
      st'.last_bot_move = "" ∧
      st'.user_score = st.user_score ∧
      st'.bot_score = st.bot_score ∧
      st'.user_bomb_used = st.user_bomb_used ∧
      st'.bot_bomb_used = st.bot_bomb_used ∧
      st'.game_active =
        (if st.round_number + 1 > 3 then false else st.game_active) := by
  refine ⟨update_core raw st pick,
    (update_ok_iff raw st pick _).mpr ⟨hval, rfl⟩, ?_⟩
  rw [update_core_invalid_eq raw st pick hinv]
  exact ⟨rfl, rfl, rfl, rfl, rfl, rfl, rfl, rfl⟩

/-- C2 witness: the invalid input "garbage" on the default state. -/
theorem invalid_input_wastes_round_witness :
    ∃ st', update_game_state_tool "garbage" initialState pick0 =
        Except.ok st' ∧
      st'.round_number = initialState.round_number + 1 ∧
      st'.last_user_move = "garbage" ∧
      st'.last_bot_move = "" ∧
      st'.user_score = initialState.user_score ∧
      st'.bot_score = initialState.bot_score ∧
      st'.user_bomb_used = initialState.user_bomb_used ∧
      st'.bot_bomb_used = initialState.bot_bomb_used ∧
      st'.game_active =
        (if initialState.round_number + 1 > 3 then false
         else initialState.game_active) :=
  invalid_input_wastes_round "garbage" initialState pick0 (by decide)
    (by decide)

/-- A concrete state in which the user bomb has already been used. -/
def bombUsedState : GameState := { initialState with user_bomb_used := true }

/-- C3 counterexample: with the bomb already used and raw input " BOMB "
(which normalizes to "bomb"), the engine stores the raw text " BOMB " in
last_user_move, not the normalized value "bomb" the claim requires. -/
theorem bomb_reuse_stores_raw_counterexample :
    bombUsedState.user_bomb_used = true ∧
    pyNormalize " BOMB " = "bomb" ∧
    update_game_state_tool " BOMB " bombUsedState pick0 =
      Except.ok (update_core " BOMB " bombUsedState pick0) ∧
    (update_core " BOMB " bombUsedState pick0).last_user_move = " BOMB " ∧
    (update_core " BOMB " bombUsedState pick0).last_user_move ≠ "bomb" :=
  ⟨rfl, by decide, rfl, by decide, by decide⟩

/-- C3 (amended): when the user bomb is already used and the input
normalizes to "bomb", the engine wastes the round (scores and both bomb
flags unchanged, round_number + 1, empty bot move) with the distinct
"bomb already used" message, and last_user_move is set to the RAW input
text (not the normalized value). -/
theorem bomb_reuse_wastes_round (raw : String) (st : GameState)
    (pick : Fin 3) (hval : st.pydValid = true)
    (hb : st.user_bomb_used = true) (hn : pyNormalize raw = "bomb") :
    ∃ st', update_game_state_tool raw st pick = Except.ok st' ∧
      st'.round_number = st.round_number + 1 ∧
      st'.user_score = st.user_score ∧
      st'.bot_score = st.bot_score ∧
      st'.user_bomb_used = true ∧
      st'.bot_bomb_used = st.bot_bomb_used ∧
      st'.last_bot_move = "" ∧
      st'.last_result = "You already used your bomb!" ∧
      st'.last_user_move = raw := by
  refine ⟨update_core raw st pick,
    (update_ok_iff raw st pick _).mpr ⟨hval, rfl⟩, ?_⟩
  rw [update_core_bomb_reuse_eq raw st pick hn hb]
  exact ⟨rfl, rfl, rfl, hb, rfl, rfl, rfl, rfl⟩

/-- C3 witness: re-using the bomb with raw input "bomb". -/
theorem bomb_reuse_wastes_round_witness :
    ∃ st', update_game_state_tool "bomb" bombUsedState pick0 =
        Except.ok st' ∧
      st'.round_number = bombUsedState.round_number + 1 ∧
      st'.user_score = bombUsedState.user_score ∧
      st'.bot_score = bombUsedState.bot_score ∧
      st'.user_bomb_used = true ∧
      st'.bot_bomb_used = bombUsedState.bot_bomb_used ∧
      st'.last_bot_move = "" ∧
      st'.last_result = "You already used your bomb!" ∧
      st'.last_user_move = "bomb" :=
  bomb_reuse_wastes_round "bomb" bombUsedState pick0 (by decide) rfl
    (by decide)

/-- C4: the bot selector returns "bomb" iff its bomb is unused, the round
is 2, and it is strictly behind; in every other case it returns the
injected random draw from rock/paper/scissors and never "bomb". -/
theorem choose_bot_move_policy (st : GameState) (pick : Fin 3) :
    (choose_bot_move st pick = "bomb" ↔
      st.bot_bomb_used = false ∧ st.round_number = 2 ∧
        st.bot_score < st.user_score) ∧
    (¬(st.bot_bomb_used = false ∧ st.round_number = 2 ∧
        st.bot_score < st.user_score) →
      choose_bot_move st pick ∈ rpsChoices ∧
        choose_bot_move st pick ≠ "bomb") := by
  have hcond : (!st.bot_bomb_used && st.round_number == 2 &&
      decide (st.bot_score < st.user_score)) = true ↔
      (st.bot_bomb_used = false ∧ st.round_number = 2 ∧
        st.bot_score < st.user_score) := by
    simp [Bool.and_eq_true, Bool.not_eq_true', beq_iff_eq, and_assoc]
  unfold choose_bot_move
  by_cases h : st.bot_bomb_used = false ∧ st.round_number = 2 ∧
      st.bot_score < st.user_score
  · rw [if_pos (hcond.mpr h)]
    exact ⟨iff_of_true rfl h, fun hn => absurd h hn⟩
  · rw [if_neg (fun hb => h (hcond.mp hb))]
    have hne : rpsChoices.getD pick.val "" ≠ "bomb" := by
      fin_cases pick <;> decide
    have hmem : rpsChoices.getD pick.val "" ∈ rpsChoices := by
      fin_cases pick <;> decide
    exact ⟨iff_of_false hne h, fun _ => ⟨hmem, hne⟩⟩

/-- The spec's scenario state: round 2, user 1 - bot 0, bombs unused. -/
def losingRound2State : GameState :=
  { initialState with round_number := 2, user_score := 1 }

/-- C4 witness: the strategic branch fires in the spec's scenario state. -/
theorem choose_bot_move_policy_witness :
    (choose_bot_move losingRound2State pick0 = "bomb" ↔
      losingRound2State.bot_bomb_used = false ∧
        losingRound2State.round_number = 2 ∧
        losingRound2State.bot_score < losingRound2State.user_score) ∧
    (¬(losingRound2State.bot_bomb_used = false ∧
        losingRound2State.round_number = 2 ∧
        losingRound2State.bot_score < losingRound2State.user_score) →
      choose_bot_move losingRound2State pick0 ∈ rpsChoices ∧
        choose_bot_move losingRound2State pick0 ≠ "bomb") :=
  choose_bot_move_policy losingRound2State pick0

/-- C5: each successful engine call increments round_number by exactly 1
regardless of the raw input, and every state reachable from the default
state by engine calls has round_number between 1 and 4. -/
theorem round_increment_and_bound :
    (∀ (raw : String) (st st' : GameState) (pick : Fin 3),
        update_game_state_tool raw st pick = Except.ok st' →
        st'.round_number = st.round_number + 1) ∧
    (∀ st : GameState, Reachable st →
        1 ≤ st.round_number ∧ st.round_number ≤ 4) := by
  have hstep : ∀ (raw : String) (st st' : GameState) (pick : Fin 3),
      update_game_state_tool raw st pick = Except.ok st' →
      st'.round_number = st.round_number + 1 := by
    intro raw st st' pick h
    obtain ⟨-, rfl⟩ := (update_ok_iff raw st pick st').mp h
    exact update_core_round_eq raw st pick
  refine ⟨hstep, ?_⟩
  intro st h
  induction h with
  | init => exact ⟨by decide, by decide⟩
  | step st st' input pick hR hok ih =>
      obtain ⟨hval, rfl⟩ := (update_ok_iff input st pick st').mp hok
      have hb := pydValid_round_bounds st hval
      rw [update_core_round_eq]
      omega

/-- C5 witness: the first call from the default state. -/
theorem round_increment_and_bound_witness :
    (update_core "rock" initialState pick0).round_number =
      initialState.round_number + 1 ∧
    (1 ≤ initialState.round_number ∧ initialState.round_number ≤ 4) :=
  ⟨round_increment_and_bound.1 "rock" initialState _ pick0 rfl,
   round_increment_and_bound.2 initialState Reachable.init⟩

/-- C6: in every reachable state, game_active holds iff round_number ≤ 3. -/
theorem game_active_iff_round_le_three (st : GameState) (h : Reachable st) :
    st.game_active = true ↔ st.round_number ≤ 3 := by
  induction h with
  | init => exact iff_of_true rfl (by decide)
  | step st st' input pick hR hok ih =>
      obtain ⟨hval, rfl⟩ := (update_ok_iff input st pick st').mp hok
      have hb := pydValid_round_bounds st hval
      rw [update_core_active_eq, update_core_round_eq]
      split_ifs with h3
      · exact iff_of_false (by simp) (by omega)
      · exact iff_of_true (ih.mpr hb.2) (by omega)

/-- C6 witness: the invariant at the default state. -/
theorem game_active_iff_round_le_three_witness :
    initialState.game_active = true ↔ initialState.round_number ≤ 3 :=
  game_active_iff_round_le_three initialState Reachable.init

/-- C7: in every reachable state, user_score + bot_score is at most
round_number - 1. -/
theorem score_sum_le_round_sub_one (st : GameState) (h : Reachable st) :
    st.user_score + st.bot_score ≤ st.round_number - 1 := by
  induction h with
  | init => decide
  | step st st' input pick hR hok ih =>
      obtain ⟨hval, rfl⟩ := (update_ok_iff input st pick st').mp hok
      have hs := update_core_score_sum input st pick
      have hr := update_core_round_eq input st pick
      omega

/-- C7 witness: the bound at the default state. -/
theorem score_sum_le_round_sub_one_witness :
    initialState.user_score + initialState.bot_score ≤
      initialState.round_number - 1 :=
  score_sum_le_round_sub_one initialState Reachable.init

/-- C8: the engine is total over arbitrary string input on every
pydantic-valid state: the call always returns a next state and never
raises. -/
theorem engine_total_on_valid_states (raw : String) (st : GameState)
    (pick : Fin 3) (h : st.pydValid = true) :
    ∃ st', update_game_state_tool raw st pick = Except.ok st' :=
  ⟨update_core raw st pick, (update_ok_iff raw st pick _).mpr ⟨h, rfl⟩⟩

/-- C8 witness: garbage input on the default state returns a state. -/
theorem engine_total_on_valid_states_witness :
    ∃ st', update_game_state_tool "!!garbage!!" initialState pick0 =
      Except.ok st' :=
  engine_total_on_valid_states "!!garbage!!" initialState pick0 (by decide)

/-- The engine output after one, two and three accepted moves ("rock",
with the bot drawing "rock") from the default state. -/
def stateAfter1 : GameState := update_core "rock" initialState pick0

/-- The engine output after the second accepted move. -/
def stateAfter2 : GameState := update_core "rock" stateAfter1 pick0

/-- The engine output after the third accepted move: the finished state. -/
def stateAfter3 : GameState := update_core "rock" stateAfter2 pick0

/-- C9 (code bug): three accepted moves from the default state produce the
finished state with round_number = 4, which violates the GameState model's
declared constraint le=3: the finished engine output fails re-validation,
so the next GameState construction over it raises a ValidationError. -/
theorem finished_state_fails_revalidation :
    update_game_state_tool "rock" initialState pick0 =
      Except.ok stateAfter1 ∧
    update_game_state_tool "rock" stateAfter1 pick0 =
      Except.ok stateAfter2 ∧
    update_game_state_tool "rock" stateAfter2 pick0 =
      Except.ok stateAfter3 ∧
    stateAfter3.round_number = 4 ∧
    stateAfter3.game_active = false ∧
    stateAfter3.pydValid = false ∧
    update_game_state_tool "rock" stateAfter3 pick0 =
      Except.error "ValidationError" :=
  ⟨rfl, rfl, rfl, by decide, by decide, by decide, rfl⟩

end RockPaperBomb
